import Mathlib

set_option synthInstance.maxSize 400

/-!
Verification of the asset-management core of `mpf-mc` (`mc/core/assets.py`)
against its natural-language specification.

The Python module is shallowly embedded: Python `dict`s become ordered
association lists with Python's insertion-order semantics (`alSet` replaces a
present key in place and appends a new key at the end, exactly as CPython
dicts behave; keys are unique, so removal is modelled by filtering the key
out); filesystem walking is abstracted as the list of discovered files in
walk order; the loader thread's `while True` loop is modelled as a fold over
the finite list of requests it dequeues; exceptions become `Except`.
-/

namespace Assets

/-- A Python value as far as the asset configs are concerned: an integer or a
string. -/
inductive Val where
  | num (n : Int)
  | str (s : String)
deriving DecidableEq

/-- Python `d[k]` lookup on an association list (first matching key). -/
def alLookup {α : Type} : List (String × α) → String → Option α
  | [], _ => none
  | kv :: rest, k => if kv.1 = k then some kv.2 else alLookup rest k

/-- Python `d[k] = v`: replace the value of a present key in place, otherwise
append the new key at the end (CPython insertion-order semantics). -/
def alSet {α : Type} (d : List (String × α)) (k : String) (v : α) :
    List (String × α) :=
  match d with
  | [] => [(k, v)]
  | kv :: rest =>
      if kv.1 = k then (k, v) :: rest else kv :: alSet rest k v

/-- Python `d.update(e)`: fold `d[k] = v` over the entries of `e` in order. -/
def alUpdate {α : Type} (d e : List (String × α)) : List (String × α) :=
  e.foldl (fun acc kv => alSet acc kv.1 kv.2) d

/-- Python `k in d`. -/
def alContains {α : Type} (d : List (String × α)) (k : String) : Bool :=
  (alLookup d k).isSome

/-- Python `d.pop(k)` (no default): the value at `k` together with the dict
with `k` removed, or `none` when `k` is absent (a `KeyError` in Python). -/
def alPop {α : Type} (d : List (String × α)) (k : String) :
    Option (α × List (String × α)) :=
  match alLookup d k with
  | some v => some (v, d.filter (fun kv => kv.1 ≠ k))
  | none => none

instance {ε α : Type} [DecidableEq ε] [DecidableEq α] :
    DecidableEq (Except ε α) := fun a b =>
  match a, b with
  | Except.ok x, Except.ok y => decidable_of_iff (x = y) (by simp)
  | Except.error x, Except.error y => decidable_of_iff (x = y) (by simp)
  | Except.ok _, Except.error _ => isFalse (by simp)
  | Except.error _, Except.ok _ => isFalse (by simp)

/-- Lexicographic comparison of two character lists by code point — the
order Python's `<`/`>` on `str` uses. -/
def charsLt : List Char → List Char → Bool
  | [], [] => false
  | [], _ :: _ => true
  | _ :: _, [] => false
  | a :: as, b :: bs =>
      if a.toNat < b.toNat then true
      else if b.toNat < a.toNat then false
      else charsLt as bs

/-- Python `a < b` on strings. -/
def strLt (a b : String) : Bool := charsLt a.data b.data

/-- Python `a.endswith(b)` on one suffix. -/
def strEndsWith (a b : String) : Bool :=
  decide (a.data.drop (a.data.length - b.data.length) = b.data) &&
  decide (b.data.length ≤ a.data.length)

/-- Python `str.lower()` for the ASCII range the asset file names use. -/
def lowerChar (c : Char) : Char :=
  if 65 ≤ c.toNat ∧ c.toNat ≤ 90 then Char.ofNat (c.toNat + 32) else c

/-- Python `s.lower()` (ASCII). -/
def lowerStr (s : String) : String := String.mk (s.data.map lowerChar)

/-- `os.path.join` for the relative paths the asset manager builds. -/
def pjoin (a b : String) : String :=
  if a = "" then b else a ++ "/" ++ b

/-- The stem of `os.path.splitext`: everything before the last dot, except
that the leading dots of the name never start an extension
(`splitext(".png") = (".png", "")`). -/
def splitextStem (s : String) : String :=
  let cs := s.data
  let lead := cs.takeWhile (fun c => c = '.')
  let rest := cs.drop lead.length
  if rest.contains '.' then
    let keep := (rest.reverse.drop (rest.reverse.indexOf '.' + 1)).reverse
    String.mk (lead ++ keep)
  else s

/-! ## The loader priority queue (`AssetClass.__lt__`, `AssetClass._get_id`)

`__lt__` stringifies `(priority, id)` on both sides and compares the strings
with `>` ("backwards", because `PriorityQueue` pops the smallest element
first).  Creation ids are handed out by `_get_id`, a strictly increasing
counter, so the keys of distinct queued assets are distinct and the pop order
of a `PriorityQueue` is exactly ascending order under `__lt__`. -/

/-- A queued load request: the instance's `priority` and its monotonic
creation `id` (`AssetClass._get_id`), which records submission order. -/
structure QAsset where
  priority : Int
  id : Nat
deriving DecidableEq

/-- The string `"%s, %s" % (priority, id)` that `AssetClass.__lt__` builds
for each side of the comparison. -/
def pyKey (a : QAsset) : String :=
  toString a.priority ++ ", " ++ toString a.id

/-- `AssetClass.__lt__` (assets.py:605-609): `self < other` iff the rendered
string of `self` is lexicographically greater than that of `other`. -/
def assetLt (a b : QAsset) : Bool :=
  strLt (pyKey b) (pyKey a)

/-- The ordering the spec claims: strictly higher priority first, ties by
creation id ascending (submission order). -/
def specLt (a b : QAsset) : Prop :=
  b.priority < a.priority ∨ (a.priority = b.priority ∧ a.id < b.id)

instance (a b : QAsset) : Decidable (specLt a b) := by
  unfold specLt; infer_instance

/-- Insert into a list sorted ascending under `assetLt`. -/
def insertByLt (a : QAsset) : List QAsset → List QAsset
  | [] => [a]
  | b :: rest => if assetLt a b then a :: b :: rest else b :: insertByLt a rest

/-- The order in which the `PriorityQueue` hands the queued requests to the
loader thread: ascending under `__lt__`. -/
def popOrder (l : List QAsset) : List QAsset :=
  l.foldr insertByLt []

/-! ## Discovery and config merge
(`AssetManager._set_asset_class_defaults`, `_create_asset_config_entries`,
`register_asset_class`, `locate_asset_file`) -/

/-- A per-asset settings dict (`assets:<section>:<entry>` block). -/
abbrev Dict := List (String × Val)

/-- An `assets:<section>` block: entry name to settings dict. -/
abbrev SectionCfg := List (String × Dict)

/-- The `assets:` block of the machine config: section name to section. -/
abbrev AssetsCfg := List (String × SectionCfg)

/-- The machine configuration, restricted to the part the asset manager
reads: `assets := none` models a config without an `assets` key. -/
structure MachineConfig where
  assets : Option AssetsCfg
deriving DecidableEq

/-- `os.path.basename`: the part of the path after the last slash. -/
def basename (s : String) : String :=
  String.mk (s.data.reverse.takeWhile (fun c => c ≠ '/')).reverse

/-- `'{}_start'.format(mode_name)`; Python renders `None` as `"None"`. -/
def formatModeStart (modeName : Option String) : String :=
  (match modeName with | some m => m | none => "None") ++ "_start"

/-- `AssetManager._set_asset_class_defaults` (assets.py:126-152): builds the
folder-keyed default-config dict for an asset class from the machine config's
`assets:<config_section>` block.  The `default` entry is *popped* out of the
shared config (mutating it), every other entry becomes a deep copy of
`default` updated with that entry's own keys.  Returns the defaults dict and
the machine config as the mutation leaves it; `none` models the `KeyError`
raised by `this_config.pop('default')` when the section has entries but no
`default`. -/
def setAssetClassDefaults (configSection : String) (config : MachineConfig) :
    Option (SectionCfg × MachineConfig) :=
  match config.assets with
  | some assets =>
      if assets ≠ [] then
        match alLookup assets configSection with
        | some thisConfig =>
            if thisConfig ≠ [] then
              match alPop thisConfig "default" with
              | some (defaultCfg, rest) =>
                  let dcd : SectionCfg := [("default", defaultCfg)]
                  let dcd := rest.foldl
                    (fun acc kv => alSet acc kv.1 (alUpdate defaultCfg kv.2))
                    dcd
                  some (dcd, ⟨some (alSet assets configSection rest)⟩)
              | none => none
            else some ([], config)
        | none => some ([], config)
      else some ([], config)
  | none => some ([], config)

/-- The registered asset-class record (`register_asset_class`'s `ac` dict),
restricted to the fields discovery reads. -/
structure AssetClassInfo where
  pathString : String
  extensions : List String
  defaults : SectionCfg
deriving DecidableEq

/-- One file produced by the `os.walk` over `root/<path_string>`: the walk
directory it was found in and its name.  The containing folder
(`os.path.basename(path)`) is derived from `dirPath`. -/
structure FileEntry where
  dirPath : String
  fileName : String
deriving DecidableEq

/-- The per-directory filter `[f for f in files if f.endswith(extensions)]`,
applied to the walk's files (Python's tuple `endswith` means "ends with any
of them"; the registered extensions carry no dot). -/
def validFiles (ac : AssetClassInfo) (files : List FileEntry) :
    List FileEntry :=
  files.filter (fun f => ac.extensions.any (fun e => strEndsWith f.fileName e))

/-- The merge part of `_create_asset_config_entries`'s inner loop
(assets.py:345-381) for one discovered file: pick the folder-specific default
(or `default`), deep-copy it as the working base, adopt the first config
entry whose `file:` equals the file name or whose key equals the lower-cased
stem and merge its settings over the base (entry settings win), and store
the full path under `file`.  Returns the resolved name and the built-up
working config; `none` models the `KeyError` raised by
`asset_class['defaults'][default_string]` when even `default` is absent. -/
def resolveEntry (ac : AssetClassInfo) (config : SectionCfg) (f : FileEntry) :
    Option (String × Dict) :=
  let folder := basename f.dirPath
  let stem := lowerStr (splitextStem f.fileName)
  let fullFilePath := pjoin f.dirPath f.fileName
  let defaultString :=
    if folder = ac.pathString ∨ ¬ alContains ac.defaults folder then "default"
    else folder
  match alLookup ac.defaults defaultString with
  | none => none
  | some base =>
      let hit := config.find? (fun kv =>
        decide (alLookup kv.2 "file" = some (Val.str f.fileName)) ||
        decide (stem = kv.1))
      let pair :=
        match hit with
        | some kv => (kv.1, alUpdate base kv.2)
        | none => (stem, base)
      some (pair.1, alSet pair.2 "file" (Val.str fullFilePath))

/-- The whole body of `_create_asset_config_entries`'s inner loop
(assets.py:345-389) for one discovered file: after the merge, rewrite a
`mode_start` load trigger to `'<mode>_start'` and store the working config
under the resolved name.  `Except.error` models the two `KeyError`s the body
can raise: the `default_string` lookup and `built_up_config['load']`. -/
def processFile (ac : AssetClassInfo) (modeName : Option String)
    (config : SectionCfg) (f : FileEntry) : Except String SectionCfg :=
  match resolveEntry ac config f with
  | none => Except.error "KeyError: default_string"
  | some (name, builtUp) =>
      match alLookup builtUp "load" with
      | none => Except.error "KeyError: load"
      | some l =>
          let builtUp :=
            if l = Val.str "mode_start" then
              alSet builtUp "load" (Val.str (formatModeStart modeName))
            else builtUp
          Except.ok (alSet config name builtUp)

/-- The `for file_name in valid_files` loop of
`_create_asset_config_entries`: process the discovered files in walk order;
an uncaught `KeyError` aborts the loop (and the walk). -/
def processFiles (ac : AssetClassInfo) (modeName : Option String) :
    SectionCfg → List FileEntry → Except String SectionCfg
  | config, [] => Except.ok config
  | config, f :: rest =>
      match processFile ac modeName config f with
      | Except.ok cfg => processFiles ac modeName cfg rest
      | Except.error e => Except.error e

/-- `AssetManager._create_asset_config_entries` (assets.py:281-395): filter
the walked files by extension and process them in walk order, starting from
the existing config section. -/
def createAssetConfigEntries (ac : AssetClassInfo) (modeName : Option String)
    (config : SectionCfg) (files : List FileEntry) :
    Except String SectionCfg :=
  processFiles ac modeName config (validFiles ac files)

/-- The state `register_asset_class` touches: the attribute names already
installed on the `mc` object and the shared machine config. -/
structure RegState where
  attributes : List String
  machineConfig : MachineConfig
deriving DecidableEq

/-- `AssetManager.register_asset_class` (assets.py:79-124), restricted to
its observable effects on the registration state: reject a duplicate
attribute, install the attribute, and precompute the class defaults from the
shared machine config (which `_set_asset_class_defaults` mutates).  Returns
the new state and the computed defaults dict. -/
def registerAssetClass (st : RegState) (attrName configSection : String) :
    Except String (RegState × SectionCfg) :=
  if attrName ∈ st.attributes then
    Except.error "ValueError: attribute exists"
  else
    match setAssetClassDefaults configSection st.machineConfig with
    | none => Except.error "KeyError: default"
    | some (dcd, config) =>
        Except.ok (⟨st.attributes ++ [attrName], config⟩, dcd)

/-- The loop body of `AssetManager.locate_asset_file` (assets.py:420-423):
return the first root whose `root/<path_string>/<file_name>` is a file. -/
def locateLoop (isfile : String → Bool) (fileName pathString : String) :
    List String → Option String
  | [] => none
  | p :: rest =>
      let fullPath := pjoin (pjoin p pathString) fileName
      if isfile fullPath then some fullPath
      else locateLoop isfile fileName pathString rest

/-- `AssetManager.locate_asset_file` (assets.py:397-427): check the given
root (when supplied), then the machine root; raise `ValueError` when the
file is in neither.  The filesystem is abstracted as the `isfile`
predicate. -/
def locateAssetFile (isfile : String → Bool) (machinePath : String)
    (fileName pathString : String) (path : Option String) :
    Except String String :=
  let pathList := (match path with | some p => [p] | none => []) ++
    [machinePath]
  match locateLoop isfile fileName pathString pathList with
  | some fullPath => Except.ok fullPath
  | none => Except.error ("Could not locate image " ++ fileName)

/-! ## The loader thread (`AssetLoader.run`)

The thread's `while True` loop is modelled as a fold over the finite list of
requests it dequeues, in pop order.  The per-type load primitive
(`AssetClass._do_load`, abstract in the source) is a parameter returning
`Except`: `Except.error` models an uncaught exception. -/

/-- An asset as the loader thread sees it: its identity and its `loaded`
flag, which the thread checks before invoking the primitive. -/
structure LAsset where
  id : Nat
  loaded : Bool
deriving DecidableEq

/-- `AssetLoader.run` (assets.py:540-557) over a finite dequeue sequence:
for each asset, invoke the load primitive unless it is already loaded, then
publish the asset on the `loaded_queue`.  An exception escapes the loop: the
traceback text goes to the `exception_queue` (`mc.crash_queue`), nothing
further is processed, and the failing asset is never published.  Returns
(published assets in order, crash-queue messages). -/
def runLoader (doLoad : LAsset → Except String Unit) :
    List LAsset → List LAsset × List String
  | [] => ([], [])
  | a :: rest =>
      if a.loaded then
        let out := runLoader doLoad rest
        (a :: out.1, out.2)
      else
        match doLoad a with
        | Except.ok _ =>
            let out := runLoader doLoad rest
            (a :: out.1, out.2)
        | Except.error e => ([], [e])

/-! ## Instance lifecycle and orchestrator
(`AssetClass.load`, `_call_callbacks`, `_loaded`, `unload`;
`AssetManager._load_asset`, `_check_loader_status`) -/

/-- The mutable state of one `AssetClass` instance.  Callbacks are a Python
`set` that may contain `None` (`load()`'s default): modelled as a
duplicate-free list of `Option Nat`, `none` being `None` and `some i` a
callable identified by `i`. -/
structure AssetState where
  id : Nat
  priority : Int
  callbacks : List (Option Nat)
  loading : Bool
  loaded : Bool
  unloading : Bool
deriving DecidableEq

/-- Python `set.add`: insert unless already present. -/
def setAdd (l : List (Option Nat)) (c : Option Nat) : List (Option Nat) :=
  if c ∈ l then l else l ++ [c]

/-- `AssetClass._call_callbacks` (assets.py:628-634): invoke every callable
member of the pending set, then clear the set.  Returns the new state and
the list of callbacks invoked (`None` is not callable, so it is skipped). -/
def callCallbacks (a : AssetState) : AssetState × List Nat :=
  ({ a with callbacks := [] }, a.callbacks.filterMap id)

/-- The manager state the load path touches: the two counters, the two
queues (as the ids they hold, in order), and whether the
`_check_loader_status` watcher is scheduled. -/
structure MgrState where
  numAssetsToLoad : Nat
  numAssetsLoaded : Nat
  loaderQueue : List Nat
  loadedQueue : List Nat
  loadedWatcher : Bool
deriving DecidableEq

/-- `AssetManager._load_asset` (assets.py:469-486): increment the to-load
counter, put the asset on the loader queue, and schedule the loaded-status
watcher if it is not already running. -/
def loadAsset (m : MgrState) (assetId : Nat) : MgrState :=
  let m := { m with numAssetsToLoad := m.numAssetsToLoad + 1 }
  let m := { m with loaderQueue := m.loaderQueue ++ [assetId] }
  if m.loadedWatcher then m else { m with loadedWatcher := true }

/-- `AssetClass.load` (assets.py:611-626): optionally override the priority,
add the callback to the pending set, and either fire the callbacks at once
(already loaded) or mark the instance loading and hand it to
`AssetManager._load_asset`.  Returns the instance state, the manager state,
and the callbacks invoked before `load()` returned. -/
def load (a : AssetState) (m : MgrState) (callback : Option Nat)
    (priority : Option Int) : AssetState × MgrState × List Nat :=
  let a :=
    match priority with
    | some p => { a with priority := p }
    | none => a
  let a := { a with callbacks := setAdd a.callbacks callback }
  if a.loaded then
    let out := callCallbacks a
    (out.1, m, out.2)
  else
    let a := { a with loading := true }
    (a, loadAsset m a.id, [])

/-- `AssetClass._loaded` (assets.py:642-646), run by the watcher for each
asset drained off the loaded queue: clear `loading`/`unloading`, set
`loaded`, then fire the callbacks. -/
def assetLoaded (a : AssetState) : AssetState × List Nat :=
  let a := { a with loading := false }
  let a := { a with loaded := true }
  let a := { a with unloading := false }
  callCallbacks a

/-- `AssetManager._check_loader_status` (assets.py:488-502): drain the
loaded queue, counting each drained asset, then — when the counters meet —
reset both to zero and unschedule the watcher. -/
def checkLoaderStatus (m : MgrState) : MgrState :=
  let m := { m with
    numAssetsLoaded := m.numAssetsLoaded + m.loadedQueue.length,
    loadedQueue := [] }
  if m.numAssetsToLoad = m.numAssetsLoaded then
    { m with numAssetsLoaded := 0, numAssetsToLoad := 0,
             loadedWatcher := false }
  else m

/-- One observable event of `AssetClass.unload`: the call to the type's
unload primitive (`_do_unload`) or an interaction with the load queue.
`unload` records the former and never performs the latter. -/
inductive UEvent where
  | doUnload
  | queueOp
deriving DecidableEq

/-- `AssetClass.unload` (assets.py:648-653): set `unloading`, clear
`loaded` and `loading`, invoke the type-specific unload primitive, clear
`unloading`.  Returns the new state and the events performed, in order. -/
def unload (a : AssetState) : AssetState × List UEvent :=
  let a := { a with unloading := true }
  let a := { a with loaded := false }
  let a := { a with loading := false }
  let ev := [UEvent.doUnload]
  let a := { a with unloading := false }
  (a, ev)

/-! ## The claims -/

/-- Claim C1, settled against the code (the code contradicts its own
comments): the claim says the worker dequeues by priority descending with
equal priorities in submission order (creation id ascending), and
`_get_id`'s comment promises the same, but `__lt__`'s string comparison
pops the request with id 2 before id 1 at equal priority 5, and pops
priority 9 before priority 10; `specLt` records the claimed order at both
inputs. -/
theorem claim1_string_order_failing_input :
    popOrder [⟨5, 1⟩, ⟨5, 2⟩] = [⟨5, 2⟩, ⟨5, 1⟩] ∧
    specLt ⟨5, 1⟩ ⟨5, 2⟩ ∧
    popOrder [⟨10, 1⟩, ⟨9, 2⟩] = [⟨9, 2⟩, ⟨10, 1⟩] ∧
    specLt ⟨10, 1⟩ ⟨9, 2⟩ := by decide

/-- Claim C6: `unload()` is fully synchronous — for every instance state,
immediately after `unload` returns the `loaded`, `loading` and `unloading`
flags are all false, the type-specific unload primitive was invoked exactly
once, and no interaction with the load queue occurred. -/
theorem claim6_unload_synchronous (a : AssetState) :
    (unload a).1.loaded = false ∧ (unload a).1.loading = false ∧
    (unload a).1.unloading = false ∧
    (unload a).2.count UEvent.doUnload = 1 ∧
    UEvent.queueOp ∉ (unload a).2 := by
  refine ⟨rfl, rfl, rfl, by simp [unload], by simp [unload]⟩

/-- The asset class of the discovery-collision scenario of claim C7: images
with one class-wide default `{load: preload}`. -/
def c7assetClass : AssetClassInfo :=
  ⟨"images", ["png"], [("default", [("load", Val.str "preload")])]⟩

/-- First discovered file of the C7 scenario: `f1/x.png`. -/
def c7file1 : FileEntry := ⟨"machine/images/f1", "x.png"⟩

/-- Second discovered file of the C7 scenario: `f2/x.png`, resolving to the
same name `x`. -/
def c7file2 : FileEntry := ⟨"machine/images/f2", "x.png"⟩

/-- The config section after discovering only `c7file1`. -/
def c7cfgAfter1 : SectionCfg :=
  [("x", [("load", Val.str "preload"),
          ("file", Val.str "machine/images/f1/x.png")])]

/-- The config section after discovering both C7 files. -/
def c7cfgFinal : SectionCfg :=
  [("x", [("load", Val.str "preload"),
          ("file", Val.str "machine/images/f2/x.png")])]

/-- Claim C7: two discovered files resolving to the same name `x` leave
exactly one entry under `x` in the final config map, equal to the fully
merged config of the file processed last (the per-file body applied to
`c7file2` against the post-`c7file1` map produces exactly the final map),
with no error raised. -/
theorem claim7_collision_last_write_wins :
    createAssetConfigEntries c7assetClass none [] [c7file1] =
      Except.ok c7cfgAfter1 ∧
    processFile c7assetClass none c7cfgAfter1 c7file2 =
      Except.ok c7cfgFinal ∧
    createAssetConfigEntries c7assetClass none [] [c7file1, c7file2] =
      Except.ok c7cfgFinal ∧
    c7cfgFinal = [("x", [("load", Val.str "preload"),
                         ("file", Val.str "machine/images/f2/x.png")])] := by
  decide

/-- The machine config of claim C3 as the claim literally states it: the
class default is `{a: 1}` and the folder `foo` default adds `{b: 2}` —
neither carries a `load` key. -/
def c3machineConfig : MachineConfig :=
  ⟨some [("images", [("default", [("a", Val.num 1)]),
                     ("foo", [("b", Val.num 2)])])]⟩

/-- The folder-keyed defaults `_set_asset_class_defaults` computes from
`c3machineConfig`. -/
def c3defaults : SectionCfg :=
  [("default", [("a", Val.num 1)]),
   ("foo", [("a", Val.num 1), ("b", Val.num 2)])]

/-- The config entry of the C3 scenario: `x: {a: 9}`, matching `x.png`. -/
def c3entries : SectionCfg := [("x", [("a", Val.num 9)])]

/-- The discovered file of the C3 scenario: `foo/x.png`. -/
def c3file : FileEntry := ⟨"machine/images/foo", "x.png"⟩

/-- Counterexample to claim C3 as stated: with the literal configs of the
claim (`{a:1}`, `{b:2}`, `{a:9}`), the merged working config has no `load`
key, so discovery raises `KeyError` at the `built_up_config['load']` check
instead of producing `{a:9, b:2, file:<path>}`. -/
theorem claim3_counterexample :
    setAssetClassDefaults "images" c3machineConfig =
      some (c3defaults, ⟨some [("images", [("foo", [("b", Val.num 2)])])]⟩) ∧
    createAssetConfigEntries ⟨"images", ["png"], c3defaults⟩ none
      c3entries [c3file] = Except.error "KeyError: load" := by
  decide

/-- The C3 machine config amended with the required `load` key on the class
default. -/
def c3amMachineConfig : MachineConfig :=
  ⟨some [("images", [("default", [("a", Val.num 1),
                                  ("load", Val.str "preload")]),
                     ("foo", [("b", Val.num 2)])])]⟩

/-- The folder-keyed defaults computed from `c3amMachineConfig`. -/
def c3amDefaults : SectionCfg :=
  [("default", [("a", Val.num 1), ("load", Val.str "preload")]),
   ("foo", [("a", Val.num 1), ("load", Val.str "preload"),
            ("b", Val.num 2)])]

/-- Claim C3 as amended: when the class default also carries the `load` key
discovery requires (here `{a:1, load:preload}`), the folder `foo` default
adds `{b:2}` and the matching entry overrides `{a:9}`, discovery produces
the merged config `{a:9, load:preload, b:2, file:<full path>}` — entry
settings win over folder settings, which win over the class default, and
the resolved path is stored under `file`. -/
theorem claim3_amended_merge_precedence :
    setAssetClassDefaults "images" c3amMachineConfig =
      some (c3amDefaults,
            ⟨some [("images", [("foo", [("b", Val.num 2)])])]⟩) ∧
    createAssetConfigEntries ⟨"images", ["png"], c3amDefaults⟩ none
      c3entries [c3file] =
      Except.ok [("x",
        [("a", Val.num 9), ("load", Val.str "preload"), ("b", Val.num 2),
         ("file", Val.str "machine/images/foo/x.png")])] := by
  decide

/-- Counterexample to claim C2 as stated: a dequeued request whose load
primitive raises is never published to the completion channel — it is
published zero times, not exactly once; the captured fault goes to the
fault channel instead. -/
theorem claim2_counterexample :
    (runLoader (fun _ => Except.error "boom") [⟨1, false⟩]).1.count
        ⟨1, false⟩ = 0 ∧
    (runLoader (fun _ => Except.error "boom") [⟨1, false⟩]).2 = ["boom"] := by
  decide

/-- Claim C2 as amended: a dequeued instance is published to the completion
channel exactly once when its load primitive succeeds or is skipped because
the instance is already loaded, and no fault is forwarded; when the
primitive raises, the instance is *not* published, the captured fault is
forwarded to the fault channel exactly once, and the worker processes
nothing further. -/
theorem claim2_amended_publish_and_fault :
    (∀ (doLoad : LAsset → Except String Unit) (queue : List LAsset),
        (∀ a ∈ queue, a.loaded = true ∨ doLoad a = Except.ok ()) →
        runLoader doLoad queue = (queue, [])) ∧
    (∀ (doLoad : LAsset → Except String Unit) (pre post : List LAsset)
        (a : LAsset) (e : String),
        (∀ x ∈ pre, x.loaded = true ∨ doLoad x = Except.ok ()) →
        a.loaded = false → doLoad a = Except.error e →
        runLoader doLoad (pre ++ a :: post) = (pre, [e])) := by
  constructor
  · intro doLoad queue h
    induction queue with
    | nil => rfl
    | cons b rest ih =>
        have hrest : ∀ a ∈ rest, a.loaded = true ∨ doLoad a = Except.ok () :=
          fun a ha => h a (List.mem_cons_of_mem _ ha)
        rcases h b (List.mem_cons_self _ _) with hl | hok
        · simp [runLoader, hl, ih hrest]
        · by_cases hb : b.loaded = true
          · simp [runLoader, hb, ih hrest]
          · simp only [Bool.not_eq_true] at hb
            simp [runLoader, hb, hok, ih hrest]
  · intro doLoad pre post a e hpre ha he
    induction pre with
    | nil => simp [runLoader, ha, he]
    | cons x xs ih =>
        have hxs : ∀ y ∈ xs, y.loaded = true ∨ doLoad y = Except.ok () :=
          fun y hy => hpre y (List.mem_cons_of_mem _ hy)
        rcases hpre x (List.mem_cons_self _ _) with hl | hok
        · simp [runLoader, hl, ih hxs]
        · by_cases hx : x.loaded = true
          · simp [runLoader, hx, ih hxs]
          · simp only [Bool.not_eq_true] at hx
            simp [runLoader, hx, hok, ih hxs]

/-- Witness for the amended claim C2 at concrete inputs: a queue where every
primitive succeeds is published in full with no fault, and a queue whose
second request raises publishes only the first request and forwards one
fault. -/
theorem claim2_amended_witness :
    runLoader (fun _ => Except.ok ()) [⟨1, false⟩, ⟨2, true⟩] =
      ([⟨1, false⟩, ⟨2, true⟩], []) ∧
    runLoader (fun a => if a.id = 1 then Except.ok () else
        Except.error "boom")
      ([⟨1, false⟩] ++ ⟨2, false⟩ :: [⟨3, false⟩]) = ([⟨1, false⟩], ["boom"]) :=
  ⟨claim2_amended_publish_and_fault.1 _ _ (by decide),
   claim2_amended_publish_and_fault.2 _ _ _ _ _ (by decide) (by decide)
     (by decide)⟩

/-- Claim C4: calling `load(callback)` on a Loaded instance fires every
pending callback — the one just supplied included — synchronously before
`load` returns, leaves the manager state (both counters and both queues)
untouched, clears the pending set, and, the pending set being
duplicate-free (it models a Python `set`), fires no callback twice. -/
theorem claim4_load_on_loaded (a : AssetState) (m : MgrState) (c : Nat)
    (h : a.loaded = true) (hnd : a.callbacks.Nodup) :
    (load a m (some c) none).2.1 = m ∧
    (load a m (some c) none).2.2 =
      (setAdd a.callbacks (some c)).filterMap id ∧
    c ∈ (load a m (some c) none).2.2 ∧
    (load a m (some c) none).1.callbacks = [] ∧
    (load a m (some c) none).2.2.Nodup := by
  have hmem : some c ∈ setAdd a.callbacks (some c) := by
    unfold setAdd
    by_cases hc : some c ∈ a.callbacks <;> simp [hc]
  have hnd2 : (setAdd a.callbacks (some c)).Nodup := by
    unfold setAdd
    by_cases hc : some c ∈ a.callbacks
    · simpa [hc] using hnd
    · simp [hc, List.nodup_append, hnd]
  have key : load a m (some c) none =
      ({ a with callbacks := [] }, m,
        (setAdd a.callbacks (some c)).filterMap id) := by
    simp [load, callCallbacks, h]
  rw [key]
  refine ⟨rfl, rfl, List.mem_filterMap.mpr ⟨some c, hmem, rfl⟩, rfl, ?_⟩
  refine List.Nodup.filterMap ?_ hnd2
  intro o o' b hb hb'
  simp only [id, Option.mem_def] at hb hb'
  rw [hb, hb']

/-- Witness for claim C4: a Loaded instance with pending set `{7, None}`
given callback `9` fires `7` and `9` exactly once each, clears its pending
set, and leaves the idle manager state untouched. -/
theorem claim4_witness :
    (⟨1, 0, [some 7, none], false, true, false⟩ : AssetState).loaded = true ∧
    ([some 7, none] : List (Option Nat)).Nodup ∧
    ((load ⟨1, 0, [some 7, none], false, true, false⟩ ⟨0, 0, [], [], false⟩
        (some 9) none).2.1 = ⟨0, 0, [], [], false⟩ ∧
      (load ⟨1, 0, [some 7, none], false, true, false⟩ ⟨0, 0, [], [], false⟩
        (some 9) none).2.2 =
        (setAdd [some 7, none] (some 9)).filterMap id ∧
      9 ∈ (load ⟨1, 0, [some 7, none], false, true, false⟩
        ⟨0, 0, [], [], false⟩ (some 9) none).2.2 ∧
      (load ⟨1, 0, [some 7, none], false, true, false⟩ ⟨0, 0, [], [], false⟩
        (some 9) none).1.callbacks = [] ∧
      (load ⟨1, 0, [some 7, none], false, true, false⟩ ⟨0, 0, [], [], false⟩
        (some 9) none).2.2.Nodup) :=
  ⟨rfl, by decide, claim4_load_on_loaded _ _ 9 rfl (by decide)⟩

/-- The manager's idle progress state: both counters zero, both queues
empty, watcher unscheduled. -/
def idleMgr : MgrState := ⟨0, 0, [], [], false⟩

/-- The batch scenario of claim C5: from the idle state, submit one load
request per id in `ids`, let the loader thread publish the completions
`delivered` onto the loaded queue, then run one watcher tick. -/
def runBatch (ids delivered : List Nat) : MgrState :=
  checkLoaderStatus
    { ids.foldl loadAsset idleMgr with loadedQueue := delivered }

/-- `_load_asset` adds one to the to-load counter and never touches the
loaded counter, so a fold of submissions adds their number. -/
theorem foldl_loadAsset_counters (ids : List Nat) (m : MgrState) :
    (ids.foldl loadAsset m).numAssetsToLoad =
      m.numAssetsToLoad + ids.length ∧
    (ids.foldl loadAsset m).numAssetsLoaded = m.numAssetsLoaded := by
  induction ids generalizing m with
  | nil => simp
  | cons i rest ih =>
      have hstep : (loadAsset m i).numAssetsToLoad = m.numAssetsToLoad + 1 ∧
          (loadAsset m i).numAssetsLoaded = m.numAssetsLoaded := by
        cases hw : m.loadedWatcher <;> simp [loadAsset, hw]
      have h1 := (ih (loadAsset m i)).1
      have h2 := (ih (loadAsset m i)).2
      constructor
      · rw [List.foldl_cons, h1, hstep.1, List.length_cons]
        omega
      · rw [List.foldl_cons, h2, hstep.2]

/-- Claim C5: after a batch in which `toLoad` was incremented `n` times
(`n > 0`) from the idle state, one watcher tick that drains the `n`
published completions leaves both counters exactly zero and unschedules the
watcher (polling stops until the next load request). -/
theorem claim5_counters_reset (n : Nat) (ids delivered : List Nat)
    (hn : 0 < n) (hids : ids.length = n) (hdel : delivered.length = n) :
    (runBatch ids delivered).numAssetsToLoad = 0 ∧
    (runBatch ids delivered).numAssetsLoaded = 0 ∧
    (runBatch ids delivered).loadedWatcher = false := by
  obtain ⟨h1, h2⟩ := foldl_loadAsset_counters ids idleMgr
  have hto : (ids.foldl loadAsset idleMgr).numAssetsToLoad = n := by
    simpa [idleMgr, hids] using h1
  have hld : (ids.foldl loadAsset idleMgr).numAssetsLoaded = 0 := by
    simpa [idleMgr] using h2
  unfold runBatch checkLoaderStatus
  simp [hto, hld, hdel]

/-- Witness for claim C5: a batch of three load requests whose three
completions are drained in one tick resets both counters and stops
polling. -/
theorem claim5_witness :
    0 < 3 ∧ ([1, 2, 3] : List Nat).length = 3 ∧
    ([1, 2, 3] : List Nat).length = 3 ∧
    ((runBatch [1, 2, 3] [1, 2, 3]).numAssetsToLoad = 0 ∧
      (runBatch [1, 2, 3] [1, 2, 3]).numAssetsLoaded = 0 ∧
      (runBatch [1, 2, 3] [1, 2, 3]).loadedWatcher = false) :=
  ⟨by decide, rfl, rfl, claim5_counters_reset 3 _ _ (by decide) rfl rfl⟩

/-- Claim C8: `locate_asset_file(file_name, path_string, path)` returns
`path/path_string/file_name` when that file exists, otherwise falls back to
`machine_root/path_string/file_name` when that exists, and raises the
not-found error synchronously when the file exists in neither location. -/
theorem claim8_locate_asset_file (isfile : String → Bool)
    (machinePath fileName pathString p : String) :
    (isfile (pjoin (pjoin p pathString) fileName) = true →
      locateAssetFile isfile machinePath fileName pathString (some p) =
        Except.ok (pjoin (pjoin p pathString) fileName)) ∧
    (isfile (pjoin (pjoin p pathString) fileName) = false →
      isfile (pjoin (pjoin machinePath pathString) fileName) = true →
      locateAssetFile isfile machinePath fileName pathString (some p) =
        Except.ok (pjoin (pjoin machinePath pathString) fileName)) ∧
    (isfile (pjoin (pjoin p pathString) fileName) = false →
      isfile (pjoin (pjoin machinePath pathString) fileName) = false →
      locateAssetFile isfile machinePath fileName pathString (some p) =
        Except.error ("Could not locate image " ++ fileName)) := by
  refine ⟨fun h1 => ?_, fun h1 h2 => ?_, fun h1 h2 => ?_⟩ <;>
    simp [locateAssetFile, locateLoop, h1, *]

/-- Witness for claim C8 at a concrete filesystem: the given root wins when
it has the file, the machine root is the fallback, and an absent file
raises the not-found error. -/
theorem claim8_witness :
    locateAssetFile (fun s => decide (s = "r/ps/a.png")) "m" "a.png" "ps"
        (some "r") = Except.ok "r/ps/a.png" ∧
    locateAssetFile (fun s => decide (s = "m/ps/a.png")) "m" "a.png" "ps"
        (some "r") = Except.ok "m/ps/a.png" ∧
    locateAssetFile (fun _ => false) "m" "a.png" "ps" (some "r") =
      Except.error ("Could not locate image " ++ "a.png") :=
  ⟨(claim8_locate_asset_file (fun s => decide (s = "r/ps/a.png")) "m"
      "a.png" "ps" "r").1 (by decide),
   (claim8_locate_asset_file (fun s => decide (s = "m/ps/a.png")) "m"
      "a.png" "ps" "r").2.1 (by decide) (by decide),
   (claim8_locate_asset_file (fun _ => false) "m" "a.png" "ps" "r").2.2
     rfl rfl⟩

/-- Processing a concatenation of walked files processes the first part,
then — only when no `KeyError` was raised — the second part from the
resulting config. -/
theorem processFiles_append (ac : AssetClassInfo) (mn : Option String)
    (config : SectionCfg) (l1 l2 : List FileEntry) :
    processFiles ac mn config (l1 ++ l2) =
      match processFiles ac mn config l1 with
      | Except.ok c => processFiles ac mn c l2
      | Except.error e => Except.error e := by
  induction l1 generalizing config with
  | nil => simp [processFiles]
  | cons x xs ih =>
      simp only [List.cons_append, processFiles]
      cases processFile ac mn config x with
      | ok c => simp [ih]
      | error e => simp

/-- Claim C9: discovery requires every merged working config to contain a
`load` key — when a discovered file's working config (after the entry
merge) lacks it, the walk raises `KeyError` at the mode-start rewrite check
instead of producing a descriptor, and everything after that file is
abandoned. -/
theorem claim9_missing_load_key_aborts (ac : AssetClassInfo)
    (modeName : Option String) (config : SectionCfg)
    (pre : List FileEntry) (f : FileEntry) (rest : List FileEntry)
    (cfg₁ : SectionCfg) (name : String) (b : Dict)
    (hpre : createAssetConfigEntries ac modeName config pre =
      Except.ok cfg₁)
    (hext : ac.extensions.any (fun e => strEndsWith f.fileName e) = true)
    (hres : resolveEntry ac cfg₁ f = some (name, b))
    (hload : alLookup b "load" = none) :
    createAssetConfigEntries ac modeName config (pre ++ f :: rest) =
      Except.error "KeyError: load" := by
  unfold createAssetConfigEntries at hpre ⊢
  have hv : validFiles ac (pre ++ f :: rest) =
      validFiles ac pre ++ f :: validFiles ac rest := by
    simp [validFiles, List.filter_append, List.filter_cons, hext]
  rw [hv, processFiles_append, hpre]
  simp [processFiles, processFile, hres, hload]

/-- Witness for claim C9: an asset class whose `default` config is empty
(so the merged working config has no `load` key) makes discovery of a
single `x.png` raise the `KeyError`. -/
theorem claim9_witness :
    createAssetConfigEntries ⟨"images", ["png"], [("default", [])]⟩ none []
        [] = Except.ok [] ∧
    (⟨"images", ["png"], [("default", [])]⟩ :
        AssetClassInfo).extensions.any
      (fun e => strEndsWith "x.png" e) = true ∧
    resolveEntry ⟨"images", ["png"], [("default", [])]⟩ []
        ⟨"machine/images", "x.png"⟩ =
      some ("x", [("file", Val.str "machine/images/x.png")]) ∧
    alLookup [("file", Val.str "machine/images/x.png")] "load" = none ∧
    createAssetConfigEntries ⟨"images", ["png"], [("default", [])]⟩ none []
        ([] ++ ⟨"machine/images", "x.png"⟩ :: []) =
      Except.error "KeyError: load" :=
  ⟨rfl, by decide, by decide, rfl,
   claim9_missing_load_key_aborts _ none [] [] ⟨"machine/images", "x.png"⟩
     [] [] "x" [("file", Val.str "machine/images/x.png")] rfl (by decide)
     (by decide) rfl⟩

/-- Looking up the key just set by `alSet` yields the value just set. -/
theorem alLookup_alSet_self {α : Type} (d : List (String × α)) (k : String)
    (v : α) : alLookup (alSet d k v) k = some v := by
  induction d with
  | nil => simp [alSet, alLookup]
  | cons kv rest ih =>
      by_cases h : kv.1 = k
      · simp [alSet, h, alLookup]
      · simp [alSet, h, alLookup, ih]

/-- Filtering a key out of an association list makes its lookup fail. -/
theorem alLookup_filter_ne {α : Type} (d : List (String × α)) (k : String) :
    alLookup (d.filter (fun kv => kv.1 ≠ k)) k = none := by
  induction d with
  | nil => rfl
  | cons kv rest ih =>
      simp only [List.filter_cons]
      by_cases h : kv.1 = k
      · simpa [h] using ih
      · simpa [alLookup, h] using ih

/-- Claim C10: registering an asset class mutates the caller's shared
machine config — when `config['assets'][section]` is present and non-empty
(with the `default` entry `pop` presupposes), registration succeeds and the
shared config's section afterwards no longer contains a `default` key. -/
theorem claim10_register_pops_default (st : RegState)
    (attrName cs : String) (assets : AssetsCfg) (thisConfig : SectionCfg)
    (d : Dict)
    (hattr : attrName ∉ st.attributes)
    (hassets : st.machineConfig.assets = some assets)
    (hne : assets ≠ [])
    (hsec : alLookup assets cs = some thisConfig)
    (hd : alLookup thisConfig "default" = some d) :
    ∃ st' dcd,
      registerAssetClass st attrName cs = Except.ok (st', dcd) ∧
      st'.machineConfig.assets =
        some (alSet assets cs
          (thisConfig.filter (fun kv => kv.1 ≠ "default"))) ∧
      alLookup (alSet assets cs
          (thisConfig.filter (fun kv => kv.1 ≠ "default"))) cs =
        some (thisConfig.filter (fun kv => kv.1 ≠ "default")) ∧
      alLookup (thisConfig.filter (fun kv => kv.1 ≠ "default")) "default" =
        none := by
  have htc : thisConfig ≠ [] := by
    intro hempty
    rw [hempty] at hd
    simp [alLookup] at hd
  have hpop : alPop thisConfig "default" =
      some (d, thisConfig.filter (fun kv => kv.1 ≠ "default")) := by
    simp [alPop, hd]
  have hreg : registerAssetClass st attrName cs =
      Except.ok
        (⟨st.attributes ++ [attrName],
          ⟨some (alSet assets cs
            (thisConfig.filter (fun kv => kv.1 ≠ "default")))⟩⟩,
         (thisConfig.filter (fun kv => kv.1 ≠ "default")).foldl
           (fun acc kv => alSet acc kv.1 (alUpdate d kv.2))
           [("default", d)]) := by
    simp [registerAssetClass, setAssetClassDefaults, hattr, hassets, hne,
      hsec, htc, hpop]
  exact ⟨_, _, hreg, rfl, alLookup_alSet_self _ _ _,
    alLookup_filter_ne _ _⟩

/-- Witness for claim C6 at a concrete instance state: a loaded instance is
fully unloaded synchronously, with one primitive call and no queue
interaction. -/
theorem claim6_witness :
    (unload ⟨1, 0, [], false, true, false⟩).1.loaded = false ∧
    (unload ⟨1, 0, [], false, true, false⟩).1.loading = false ∧
    (unload ⟨1, 0, [], false, true, false⟩).1.unloading = false ∧
    (unload ⟨1, 0, [], false, true, false⟩).2.count UEvent.doUnload = 1 ∧
    UEvent.queueOp ∉ (unload ⟨1, 0, [], false, true, false⟩).2 :=
  claim6_unload_synchronous ⟨1, 0, [], false, true, false⟩

/-- Witness for claim C10 at a concrete configuration: registering `images`
against a config whose `assets:images` section holds a `default` and a
`foo` entry succeeds and leaves the shared section without its `default`
key. -/
theorem claim10_witness :
    "images" ∉ ([] : List String) ∧
    (⟨[], ⟨some [("images",
        [("default", [("a", Val.num 1)]),
         ("foo", [("b", Val.num 2)])])]⟩⟩ :
      RegState).machineConfig.assets =
      some [("images",
        [("default", [("a", Val.num 1)]), ("foo", [("b", Val.num 2)])])] ∧
    ([("images",
        [("default", [("a", Val.num 1)]), ("foo", [("b", Val.num 2)])])] :
      AssetsCfg) ≠ [] ∧
    alLookup ([("images",
        [("default", [("a", Val.num 1)]), ("foo", [("b", Val.num 2)])])] :
      AssetsCfg) "images" =
      some [("default", [("a", Val.num 1)]), ("foo", [("b", Val.num 2)])] ∧
    alLookup ([("default", [("a", Val.num 1)]), ("foo", [("b", Val.num 2)])] :
      SectionCfg) "default" = some [("a", Val.num 1)] ∧
    (∃ st' dcd,
      registerAssetClass
          ⟨[], ⟨some [("images",
            [("default", [("a", Val.num 1)]),
             ("foo", [("b", Val.num 2)])])]⟩⟩ "images" "images" =
        Except.ok (st', dcd) ∧
      st'.machineConfig.assets =
        some (alSet [("images",
          [("default", [("a", Val.num 1)]), ("foo", [("b", Val.num 2)])])]
          "images"
          (([("default", [("a", Val.num 1)]), ("foo", [("b", Val.num 2)])] :
            SectionCfg).filter (fun kv => kv.1 ≠ "default"))) ∧
      alLookup (alSet [("images",
          [("default", [("a", Val.num 1)]), ("foo", [("b", Val.num 2)])])]
          "images"
          (([("default", [("a", Val.num 1)]), ("foo", [("b", Val.num 2)])] :
            SectionCfg).filter (fun kv => kv.1 ≠ "default"))) "images" =
        some (([("default", [("a", Val.num 1)]),
          ("foo", [("b", Val.num 2)])] :
            SectionCfg).filter (fun kv => kv.1 ≠ "default")) ∧
      alLookup (([("default", [("a", Val.num 1)]),
          ("foo", [("b", Val.num 2)])] :
            SectionCfg).filter (fun kv => kv.1 ≠ "default")) "default" =
        none) :=
  ⟨by decide, rfl, by decide, rfl, rfl,
   claim10_register_pops_default _ "images" "images" _ _ _ (by decide) rfl
     (by decide) rfl rfl⟩

end Assets
